import Mathlib

/-!
Shallow embedding of the ticket-whisperer core (entity model, ticket store,
filter engine, analysis engine, tool dispatcher) from
`src/whisperer/mcp_servers/models.py` and `src/whisperer/mcp_servers/server.py`.

Timestamps are modelled as natural numbers; each operation that reads the
wall clock (`datetime.now()`) receives the current time as an explicit
argument.  The auto-generated uuid suffix of a ticket id is likewise an
explicit argument.  Python dictionaries (the store's id-to-ticket map and
the incremental count maps of the analysis engine) are modelled as
insertion-ordered association lists, matching Python's dict semantics:
writing to an existing key replaces the value in place, writing to a fresh
key appends.
-/

namespace TicketWhisperer

/-! ### Entity model (models.py) -/

/-- `TicketStatus` string enumeration from models.py. -/
inductive TicketStatus where
  | OPEN
  | IN_PROGRESS
  | RESOLVED
  | CLOSED
deriving DecidableEq

/-- The `.value` of a status member (the underlying string). -/
def TicketStatus.value : TicketStatus → String
  | .OPEN => "open"
  | .IN_PROGRESS => "in_progress"
  | .RESOLVED => "resolved"
  | .CLOSED => "closed"

/-- `TicketPriority` string enumeration from models.py. -/
inductive TicketPriority where
  | LOW
  | MEDIUM
  | HIGH
  | CRITICAL
deriving DecidableEq

/-- The `.value` of a priority member (the underlying string). -/
def TicketPriority.value : TicketPriority → String
  | .LOW => "low"
  | .MEDIUM => "medium"
  | .HIGH => "high"
  | .CRITICAL => "critical"

/-- The `Ticket` pydantic model from models.py. -/
structure Ticket where
  id : String
  title : String
  description : String
  status : TicketStatus
  priority : TicketPriority
  assignee : Option String
  reporter : String
  created_at : Nat
  updated_at : Nat
  tags : List String
  estimated_hours : Option ℚ
deriving DecidableEq

/-- The `TicketSummary` pydantic model from models.py. -/
structure TicketSummary where
  total_tickets : Nat
  open_tickets : Nat
  in_progress_tickets : Nat
  resolved_tickets : Nat
  closed_tickets : Nat
  high_priority_tickets : Nat
  critical_priority_tickets : Nat
deriving DecidableEq

/-- The `TicketFilter` pydantic model from models.py: every field optional,
`none` meaning the field was not supplied. -/
structure TicketFilter where
  status : Option TicketStatus := none
  priority : Option TicketPriority := none
  assignee : Option String := none
  reporter : Option String := none
  tags : Option (List String) := none
deriving DecidableEq

/-! ### Pydantic-style construction of a Ticket

`Ticket(**ticket_data)` validates a raw keyword dictionary: a missing
required field or an enum string outside the allowed set raises
`ValidationError`; omitted optional fields take their declared defaults
(`status=open`, `priority=medium`, `tags=[]`, timestamps from the clock). -/

/-- A raw keyword dictionary passed to `Ticket(**data)`.  `none` models an
absent key; enum-valued keys carry raw strings, still to be validated. -/
structure TicketData where
  id : Option String := none
  title : Option String := none
  description : Option String := none
  status : Option String := none
  priority : Option String := none
  assignee : Option String := none
  reporter : Option String := none
  created_at : Option Nat := none
  updated_at : Option Nat := none
  tags : Option (List String) := none
  estimated_hours : Option ℚ := none
deriving DecidableEq

/-- A pydantic `ValidationError`: a required field is missing, or an
enum-typed field holds a string outside the allowed set. -/
inductive VError where
  | missing (field : String)
  | badEnum (field : String) (val : String)
deriving DecidableEq

/-- Parse a raw string into a `TicketStatus` member (pydantic enum coercion). -/
def parseStatus : String → Option TicketStatus
  | "open" => some .OPEN
  | "in_progress" => some .IN_PROGRESS
  | "resolved" => some .RESOLVED
  | "closed" => some .CLOSED
  | _ => none

/-- Parse a raw string into a `TicketPriority` member (pydantic enum coercion). -/
def parsePriority : String → Option TicketPriority
  | "low" => some .LOW
  | "medium" => some .MEDIUM
  | "high" => some .HIGH
  | "critical" => some .CRITICAL
  | _ => none

/-- Pydantic validation of the `status` keyword on `Ticket(**d)`: absent
means the declared default `open`; a string outside the enum is rejected. -/
def validStatus : Option String → Except VError TicketStatus
  | none => .ok .OPEN
  | some s =>
      match parseStatus s with
      | some v => .ok v
      | none => .error (.badEnum "status" s)

/-- Pydantic validation of the `priority` keyword on `Ticket(**d)`: absent
means the declared default `medium`. -/
def validPriority : Option String → Except VError TicketPriority
  | none => .ok .MEDIUM
  | some s =>
      match parsePriority s with
      | some v => .ok v
      | none => .error (.badEnum "priority" s)

/-- `Ticket(**d)` at wall-clock time `now`: validates required fields and
enum values, applies the declared field defaults. -/
def mkTicket (d : TicketData) (now : Nat) : Except VError Ticket :=
  match d.id with
  | none => .error (.missing "id")
  | some id =>
  match d.title with
  | none => .error (.missing "title")
  | some title =>
  match d.description with
  | none => .error (.missing "description")
  | some description =>
  match d.reporter with
  | none => .error (.missing "reporter")
  | some reporter =>
  match validStatus d.status with
  | .error e => .error e
  | .ok status =>
  match validPriority d.priority with
  | .error e => .error e
  | .ok priority =>
  .ok
    { id := id
      title := title
      description := description
      status := status
      priority := priority
      assignee := d.assignee
      reporter := reporter
      created_at := d.created_at.getD now
      updated_at := d.updated_at.getD now
      tags := d.tags.getD []
      estimated_hours := d.estimated_hours }

/-! ### The ticket store (server.py, class TicketStore)

`self.tickets: Dict[str, Ticket]` is an insertion-ordered map from id to
ticket, modelled as an association list. -/

/-- The store's `self.tickets` dictionary: insertion-ordered key/ticket pairs. -/
abbrev Store := List (String × Ticket)

/-- Python dict read `m.get(k)`. -/
def dictGet (s : Store) (k : String) : Option Ticket :=
  (s.find? (fun kv => kv.1 == k)).map Prod.snd

/-- Python dict write `m[k] = v`: replace in place when the key exists,
append otherwise. -/
def dictSet (s : Store) (k : String) (v : Ticket) : Store :=
  if (dictGet s k).isSome then
    s.map (fun kv => if kv.1 == k then (kv.1, v) else kv)
  else
    s ++ [(k, v)]

/-- Python `list(self.tickets.values())`: the tickets in insertion order. -/
def storeValues (s : Store) : List Ticket := s.map Prod.snd

/-- The three sample tickets installed by `TicketStore._init_sample_data`,
created at process-start time `t0`. -/
def sampleTickets (t0 : Nat) : List Ticket :=
  [ { id := "TICKET-001"
      title := "Fix login bug"
      description := "Users cannot log in with special characters in password"
      status := .OPEN
      priority := .HIGH
      assignee := none
      reporter := "alice@example.com"
      created_at := t0
      updated_at := t0
      tags := ["bug", "authentication"]
      estimated_hours := none },
    { id := "TICKET-002"
      title := "Add dark mode"
      description := "Implement dark mode theme for better user experience"
      status := .IN_PROGRESS
      priority := .MEDIUM
      assignee := some "bob@example.com"
      reporter := "carol@example.com"
      created_at := t0
      updated_at := t0
      tags := ["feature", "ui"]
      estimated_hours := none },
    { id := "TICKET-003"
      title := "Validator failure in CI/CD pipeline"
      description := "The validator failed during the nightly build process. Error occurred in the data validation step. Full logs available at: https://jenkins.example.com/job/validator-pipeline/123/console. Stack trace shows null pointer exception in ValidationEngine.validate() method. This needs immediate attention as it's blocking the release pipeline."
      status := .OPEN
      priority := .CRITICAL
      assignee := some "dev-team@example.com"
      reporter := "ci-system@example.com"
      created_at := t0
      updated_at := t0
      tags := ["validator", "ci-cd", "critical", "pipeline"]
      estimated_hours := none } ]

/-- `TicketStore.__init__` at process-start time `t0`: an empty dict filled
by `_init_sample_data`. -/
def initStore (t0 : Nat) : Store :=
  (sampleTickets t0).foldl (fun s t => dictSet s t.id t) []

/-- `TicketStore.create_ticket`: fill in a generated id when none is given,
build the ticket through pydantic validation, then write it into the dict
(unconditionally: an existing ticket under the same id is overwritten). -/
def create_ticket (s : Store) (d : TicketData) (fresh : String) (now : Nat) :
    Except VError (Ticket × Store) :=
  let d := if d.id.isNone then { d with id := some ("TICKET-" ++ fresh) } else d
  match mkTicket d now with
  | .error e => .error e
  | .ok t => .ok (t, dictSet s t.id t)

/-- `TicketStore.get_ticket`. -/
def get_ticket (s : Store) (ticket_id : String) : Option Ticket :=
  dictGet s ticket_id

/-- One `key: value` entry of the `updates` dictionary passed to
`TicketStore.update_ticket`; `unknown k` is a key that is not an attribute
of `Ticket` (so `hasattr(ticket, k)` is false). -/
inductive UpdateEntry where
  | id (v : String)
  | title (v : String)
  | description (v : String)
  | status (v : TicketStatus)
  | priority (v : TicketPriority)
  | assignee (v : Option String)
  | reporter (v : String)
  | created_at (v : Nat)
  | updated_at (v : Nat)
  | tags (v : List String)
  | estimated_hours (v : Option ℚ)
  | unknown (k : String)
deriving DecidableEq

/-- `if hasattr(ticket, key): setattr(ticket, key, value)` for one entry. -/
def applyEntry (t : Ticket) : UpdateEntry → Ticket
  | .id v => { t with id := v }
  | .title v => { t with title := v }
  | .description v => { t with description := v }
  | .status v => { t with status := v }
  | .priority v => { t with priority := v }
  | .assignee v => { t with assignee := v }
  | .reporter v => { t with reporter := v }
  | .created_at v => { t with created_at := v }
  | .updated_at v => { t with updated_at := v }
  | .tags v => { t with tags := v }
  | .estimated_hours v => { t with estimated_hours := v }
  | .unknown _ => t

/-- `TicketStore.update_ticket`: `None` when the id is absent; otherwise
apply every applicable entry, then stamp `updated_at` with the current
time, and store the result back under the original dictionary key. -/
def update_ticket (s : Store) (ticket_id : String) (updates : List UpdateEntry)
    (now : Nat) : Option (Ticket × Store) :=
  match dictGet s ticket_id with
  | none => none
  | some t =>
      let t := updates.foldl applyEntry t
      let t := { t with updated_at := now }
      some (t, s.map (fun kv => if kv.1 == ticket_id then (kv.1, t) else kv))

/-! ### Filter engine (TicketStore.list_tickets)

Each `continue` guard of the Python loop tests the filter field for Python
truthiness first: `None` is falsy, and so are the empty string and the
empty list, while every enum member is truthy. -/

/-- The body of the filtering loop for one ticket: true exactly when none of
the `continue` guards fires. -/
def matchesFilter (f : TicketFilter) (t : Ticket) : Bool :=
  (match f.status with
    | none => true
    | some st => t.status == st) &&
  (match f.priority with
    | none => true
    | some p => t.priority == p) &&
  (match f.assignee with
    | none => true
    | some a => a == "" || t.assignee == some a) &&
  (match f.reporter with
    | none => true
    | some r => r == "" || t.reporter == r) &&
  (match f.tags with
    | none => true
    | some tg => tg.isEmpty || tg.any (fun x => t.tags.contains x))

/-- `TicketStore.list_tickets`: all tickets in insertion order when no
filter object is passed, the matching ones (same order) otherwise. -/
def list_tickets (s : Store) (filter_criteria : Option TicketFilter) : List Ticket :=
  match filter_criteria with
  | none => storeValues s
  | some f => (storeValues s).filter (matchesFilter f)

/-- `TicketStore.get_summary`. -/
def get_summary (s : Store) : TicketSummary :=
  let tickets := storeValues s
  { total_tickets := tickets.length
    open_tickets := (tickets.filter (fun t => t.status == .OPEN)).length
    in_progress_tickets := (tickets.filter (fun t => t.status == .IN_PROGRESS)).length
    resolved_tickets := (tickets.filter (fun t => t.status == .RESOLVED)).length
    closed_tickets := (tickets.filter (fun t => t.status == .CLOSED)).length
    high_priority_tickets := (tickets.filter (fun t => t.priority == .HIGH)).length
    critical_priority_tickets := (tickets.filter (fun t => t.priority == .CRITICAL)).length }

/-! ### Analysis engine (handle_call_tool, analyze_tickets branches)

The Python code builds the count dictionaries incrementally
(`m[k] = m.get(k, 0) + 1`); the association-list `bumpCount` mirrors that,
keeping insertion order. -/

/-- Python `m[k] = m.get(k, 0) + 1` on a count dictionary. -/
def bumpCount [BEq α] (m : List (α × Nat)) (k : α) : List (α × Nat) :=
  if (m.find? (fun kv => kv.1 == k)).isSome then
    m.map (fun kv => if kv.1 == k then (kv.1, kv.2 + 1) else kv)
  else
    m ++ [(k, 1)]

/-- Python `m.get(k, 0)` on a count dictionary. -/
def countGet [BEq α] (m : List (α × Nat)) (k : α) : Nat :=
  ((m.find? (fun kv => kv.1 == k)).map Prod.snd).getD 0

/-- Whether an `Optional[str]` value is Python-truthy (neither `None` nor
the empty string). -/
def strTruthy : Option String → Bool
  | none => false
  | some s => !(s == "")

/-- Result of the `workload` analysis. -/
structure WorkloadAnalysis where
  workload_by_assignee : List (String × Nat)
  unassigned_tickets : Nat
deriving DecidableEq

/-- The `workload` branch of `analyze_tickets`: count tickets per truthy
assignee, and separately the tickets with a falsy assignee. -/
def analyze_workload (tickets : List Ticket) : WorkloadAnalysis :=
  { workload_by_assignee :=
      tickets.foldl
        (fun m t =>
          match t.assignee with
          | some a => if a == "" then m else bumpCount m a
          | none => m) []
    unassigned_tickets := (tickets.filter (fun t => !(strTruthy t.assignee))).length }

/-- Result of the `priority` analysis. -/
structure PriorityAnalysis where
  priority_distribution : List (TicketPriority × Nat)
  high_priority_open : Nat
deriving DecidableEq

/-- The `priority` branch of `analyze_tickets`. -/
def analyze_priority (tickets : List Ticket) : PriorityAnalysis :=
  { priority_distribution := tickets.foldl (fun m t => bumpCount m t.priority) []
    high_priority_open :=
      (tickets.filter (fun t =>
        (t.priority == .HIGH || t.priority == .CRITICAL) && t.status == .OPEN)).length }

/-- The floor of a rational number, computed through floor division of the
numerator by the denominator. -/
def ratFloor (q : ℚ) : ℤ := q.num.fdiv q.den

/-- Python `round(x, 2)` on the exact rational value: round half to even at
two decimal places. -/
def pyRound2 (q : ℚ) : ℚ :=
  let x := q * 100
  let n := ratFloor x
  let r : ℚ :=
    if x - n < 1 / 2 then n
    else if x - n > 1 / 2 then n + 1
    else if n % 2 = 0 then n else n + 1
  r / 100

/-- Result of the `trends` analysis. -/
structure TrendsAnalysis where
  status_distribution : List (TicketStatus × Nat)
  completion_rate : ℚ
deriving DecidableEq

/-- The `trends` branch of `analyze_tickets`: per-status counts plus
`completion_rate = round((resolved + closed) / total * 100, 2)`, and `0`
for an empty ticket list. -/
def analyze_trends (tickets : List Ticket) : TrendsAnalysis :=
  let status_counts := tickets.foldl (fun m t => bumpCount m t.status) []
  { status_distribution := status_counts
    completion_rate :=
      if tickets.isEmpty then 0
      else
        pyRound2
          (((countGet status_counts .RESOLVED + countGet status_counts .CLOSED : Nat) : ℚ) /
            (tickets.length : ℚ) * 100) }

/-! ### search_validator_failures (handle_call_tool branch)

Case-insensitive substring search over titles and descriptions; the
`jql_query` and `days_back` arguments only flow into the echoed query
string, never into the matching. -/

/-- Does the character list start with the given pattern? -/
def charListLead : List Char → List Char → Bool
  | _, [] => true
  | [], _ :: _ => false
  | c :: s, d :: p => c == d && charListLead s p

/-- Python `pat in s` on character lists: some suffix starts with `pat`. -/
def charListHasSub (s p : List Char) : Bool :=
  match s with
  | [] => p.isEmpty
  | _ :: rest => charListLead s p || charListHasSub rest p

/-- Python `s.lower()`, as a character list. -/
def lowerData (s : String) : List Char := s.data.map Char.toLower

/-- Python `term in hay` for a lowered haystack. -/
def containsTerm (hay : List Char) (term : String) : Bool :=
  charListHasSub hay term.data

/-- The per-ticket match of the search loop: any of the four failure terms
occurs in the lowered description or the lowered title. -/
def failureTermHit (t : Ticket) : Bool :=
  ["validator", "validation", "failed", "error"].any (fun term =>
    containsTerm (lowerData t.description) term || containsTerm (lowerData t.title) term)

/-- The `status_map.get(status_filter, "Open")` lookup used to render the
default JQL string. -/
def statusMapJql : String → String
  | "open" => "Open"
  | "in_progress" => "\"In Progress\""
  | "resolved" => "Resolved"
  | "closed" => "Closed"
  | _ => "Open"

/-- One entry of the mock search results. -/
structure SearchEntry where
  ticket_id : String
  title : String
  status : TicketStatus
  priority : TicketPriority
  created_at : Nat
  assignee : Option String
  description_preview : String
deriving DecidableEq

/-- The structured result of `search_validator_failures`. -/
structure SearchResult where
  jql_query_used : String
  total_found : Nat
  tickets : List SearchEntry
deriving DecidableEq

/-- The `search_validator_failures` branch: build the echoed JQL string
(from the default template when no custom query is given), then scan the
store for failure-term hits, apply the status filter, and truncate long
description previews to 200 characters plus an ellipsis. -/
def search_validator_failures (s : Store) (jql_query : String)
    (status_filter : String) (days_back : Int) : SearchResult :=
  let jql_query :=
    if jql_query == "" then
      let base := "project = \"YOUR_PROJECT\" AND (summary ~ \"validator\" OR summary ~ \"validation\" OR description ~ \"validator failure\")"
      let base :=
        if !(status_filter == "all") then
          base ++ " AND status = " ++ statusMapJql status_filter
        else base
      base ++ " AND created >= -" ++ toString days_back ++ "d"
    else jql_query
  let mock_results :=
    ((storeValues s).filter (fun t =>
        failureTermHit t && (status_filter == "all" || t.status.value == status_filter))).map
      (fun t =>
        { ticket_id := t.id
          title := t.title
          status := t.status
          priority := t.priority
          created_at := t.created_at
          assignee := t.assignee
          description_preview :=
            if t.description.length > 200 then t.description.take 200 ++ "..."
            else t.description })
  { jql_query_used := jql_query
    total_found := mock_results.length
    tickets := mock_results }

/-! ### Tool dispatcher (handle_call_tool)

The handler indexes `arguments["..."]` directly for required keys (a
missing key raises `KeyError`), builds pydantic models from raw argument
dictionaries (raising `ValidationError` on bad input) and, in the
`analyze_tickets` branch, leaves the local variable `analysis` unassigned
for an unrecognized `analysis_type` (raising `UnboundLocalError` at the
final serialization).  `handle_call_tool` itself installs no exception
handler, so all three escape the function; the model returns them in the
error component.  The textual payload is abstracted to the headline lines
of the response envelope (the pretty-printed JSON body is elided). -/

/-- An exception escaping `handle_call_tool`. -/
inductive PyErr where
  | validationError (e : VError)
  | keyError (k : String)
  | unboundLocal (v : String)
deriving DecidableEq

/-- Raw `list_tickets` arguments: the keyword dictionary handed to
`TicketFilter(**arguments)`, enum fields still unvalidated strings. -/
structure FilterData where
  status : Option String := none
  priority : Option String := none
  assignee : Option String := none
  reporter : Option String := none
  tags : Option (List String) := none
deriving DecidableEq

/-- `TicketFilter(**d)`: pydantic validation of the raw filter arguments. -/
def mkFilter (d : FilterData) : Except VError TicketFilter :=
  match d.status, d.status.bind parseStatus with
  | some sv, none => .error (.badEnum "status" sv)
  | _, status =>
  match d.priority, d.priority.bind parsePriority with
  | some pv, none => .error (.badEnum "priority" pv)
  | _, priority =>
  .ok
    { status := status
      priority := priority
      assignee := d.assignee
      reporter := d.reporter
      tags := d.tags }

/-- A parsed `(name, arguments)` pair for one tool call.  `Option` marks
argument keys that may be absent from the dictionary; `unknown` is any name
outside the catalog. -/
inductive ToolCall where
  | create_ticket (arguments : TicketData)
  | get_ticket (ticket_id : Option String)
  | update_ticket (ticket_id : Option String) (updates : Option (List UpdateEntry))
  | list_tickets (arguments : Option FilterData)
  | get_ticket_summary
  | analyze_tickets (analysis_type : Option String)
  | get_ticket_description (ticket_id : Option String) (extract_links : Option Bool)
      (analyze_failure : Option Bool)
  | search_validator_failures (jql_query : Option String) (status_filter : Option String)
      (days_back : Option Int)
  | unknown (name : String)
deriving DecidableEq

/-- Stands in for `json.dumps(ticket.model_dump(), ...)`: a rendering of
the ticket determined by its fields. -/
def dumpTicket (t : Ticket) : String :=
  t.id ++ "|" ++ t.title ++ "|" ++ t.description ++ "|" ++ t.status.value ++ "|" ++
    t.priority.value ++ "|" ++ t.assignee.getD "None" ++ "|" ++ t.reporter

/-- The headline lines of a `list_tickets` response. -/
def listText (ts : List Ticket) : List String :=
  ("Found " ++ toString ts.length ++ " tickets:") :: ts.map dumpTicket

/-- `handle_call_tool`: route one call to its branch.  The result is the
response's text lines together with the (possibly mutated) store, or the
exception that escapes the handler. -/
def handle_call_tool (s : Store) (call : ToolCall) (fresh : String) (now : Nat) :
    Except PyErr (List String × Store) :=
  match call with
  | .create_ticket arguments =>
      match create_ticket s arguments fresh now with
      | .error e => .error (.validationError e)
      | .ok (t, s') =>
          .ok (["Created ticket " ++ t.id ++ ": " ++ t.title, dumpTicket t], s')
  | .get_ticket ticket_id? =>
      match ticket_id? with
      | none => .error (.keyError "ticket_id")
      | some tid =>
          match get_ticket s tid with
          | none => .ok (["Ticket " ++ tid ++ " not found"], s)
          | some t => .ok ([dumpTicket t], s)
  | .update_ticket ticket_id? updates? =>
      match ticket_id?, updates? with
      | none, _ => .error (.keyError "ticket_id")
      | some _, none => .error (.keyError "updates")
      | some tid, some ups =>
          match update_ticket s tid ups now with
          | none => .ok (["Ticket " ++ tid ++ " not found"], s)
          | some (t, s') => .ok (["Updated ticket " ++ t.id, dumpTicket t], s')
  | .list_tickets arguments? =>
      match arguments? with
      | none => .ok (listText (list_tickets s none), s)
      | some d =>
          match mkFilter d with
          | .error e => .error (.validationError e)
          | .ok f => .ok (listText (list_tickets s (some f)), s)
  | .get_ticket_summary =>
      .ok (["Ticket Summary:", toString (get_summary s).total_tickets], s)
  | .analyze_tickets analysis_type? =>
      match analysis_type? with
      | none => .error (.keyError "analysis_type")
      | some a =>
          let tickets := list_tickets s none
          if a == "workload" then
            .ok (["Ticket Analysis:", "workload",
                  toString (analyze_workload tickets).unassigned_tickets], s)
          else if a == "priority" then
            .ok (["Ticket Analysis:", "priority",
                  toString (analyze_priority tickets).high_priority_open], s)
          else if a == "trends" then
            .ok (["Ticket Analysis:", "trends",
                  toString (analyze_trends tickets).completion_rate.num], s)
          else .error (.unboundLocal "analysis")
  | .get_ticket_description ticket_id? _ _ =>
      match ticket_id? with
      | none => .error (.keyError "ticket_id")
      | some tid =>
          match get_ticket s tid with
          | none => .ok (["Ticket " ++ tid ++ " not found"], s)
          | some t => .ok (["Ticket Description Analysis:", dumpTicket t], s)
  | .search_validator_failures jql_query? status_filter? days_back? =>
      let r := search_validator_failures s (jql_query?.getD "")
        (status_filter?.getD "open") (days_back?.getD 7)
      .ok (["Validator Failure Search Results:", r.jql_query_used,
            toString r.total_found], s)
  | .unknown name => .ok (["Unknown tool: " ++ name], s)

/-- Well-formedness of a call's argument dictionary against the declared
input schema: required keys present and enum-valued strings within their
allowed sets. -/
def wellFormedCall : ToolCall → Bool
  | .create_ticket d =>
      d.title.isSome && d.description.isSome && d.reporter.isSome &&
      (match d.status with
        | none => true
        | some sv => (parseStatus sv).isSome) &&
      (match d.priority with
        | none => true
        | some pv => (parsePriority pv).isSome)
  | .get_ticket ticket_id? => ticket_id?.isSome
  | .update_ticket ticket_id? updates? => ticket_id?.isSome && updates?.isSome
  | .list_tickets arguments? =>
      match arguments? with
      | none => true
      | some d =>
          (match d.status with
            | none => true
            | some sv => (parseStatus sv).isSome) &&
          (match d.priority with
            | none => true
            | some pv => (parsePriority pv).isSome)
  | .get_ticket_summary => true
  | .analyze_tickets analysis_type? =>
      analysis_type? == some "workload" || analysis_type? == some "priority" ||
        analysis_type? == some "trends"
  | .get_ticket_description ticket_id? _ _ => ticket_id?.isSome
  | .search_validator_failures _ _ _ => true
  | .unknown _ => true

/-! ### Operation sequences over the store

For the reachability invariant (spec: `updated_at` ≥ `created_at`, always),
runs of create/update operations are modelled explicitly; each operation
carries the wall-clock time at which it executes. -/

/-- One store-mutating operation: a `create_ticket` or `update_ticket`
call, with its clock reading (and, for create, the generated id suffix). -/
inductive Op where
  | create (d : TicketData) (fresh : String) (now : Nat)
  | update (ticket_id : String) (updates : List UpdateEntry) (now : Nat)

/-- The wall-clock time at which an operation executes. -/
def opTime : Op → Nat
  | .create _ _ now => now
  | .update _ _ now => now

/-- Execute one operation on the store (a failed create or an update of a
missing id leaves the store unchanged). -/
def runOp (s : Store) : Op → Store
  | .create d fresh now =>
      match create_ticket s d fresh now with
      | .error _ => s
      | .ok (_, s') => s'
  | .update tid ups now =>
      match update_ticket s tid ups now with
      | none => s
      | some (_, s') => s'

/-- Execute a sequence of operations from left to right. -/
def runOps (s : Store) (ops : List Op) : Store := ops.foldl runOp s

/-- Does this update entry write the `created_at` attribute? -/
def isCreatedAtEntry : UpdateEntry → Bool
  | .created_at _ => true
  | _ => false

/-- An operation that does not forge timestamps: a create whose argument
dictionary leaves both timestamps to their defaults, or an update whose
entries never write `created_at`. -/
def benignOp : Op → Bool
  | .create d _ _ => d.created_at.isNone && d.updated_at.isNone
  | .update _ ups _ => ups.all (fun u => !(isCreatedAtEntry u))

/-- The operation times are nondecreasing, starting no earlier than `t`
(a monotone wall clock). -/
def chronoFrom (t : Nat) : List Op → Bool
  | [] => true
  | op :: rest => decide (t ≤ opTime op) && chronoFrom (opTime op) rest

/-- The filter-engine contract stated in the spec: for every filter field
that is set — i.e. holding a truthy value, a field set to the empty string
or the empty list being treated like an unset one — the ticket's
corresponding field equals (or, for tags, intersects) the filter's value;
unset filter fields impose no constraint. -/
def SpecSatisfies (f : TicketFilter) (t : Ticket) : Prop :=
  (∀ st, f.status = some st → t.status = st) ∧
  (∀ p, f.priority = some p → t.priority = p) ∧
  (∀ a, f.assignee = some a → a ≠ "" → t.assignee = some a) ∧
  (∀ r, f.reporter = some r → r ≠ "" → t.reporter = r) ∧
  (∀ tg, f.tags = some tg → tg ≠ [] → ∃ x ∈ tg, x ∈ t.tags)

/-- Every ticket in the store has `created_at ≤ updated_at ≤ clock`. -/
def StoreInv (clock : Nat) (s : Store) : Prop :=
  ∀ kv ∈ s, kv.2.created_at ≤ kv.2.updated_at ∧ kv.2.updated_at ≤ clock

/-- A four-ticket set with exactly one resolved and one closed ticket,
for the concrete completion-rate check. -/
def fourTicketSample : List Ticket :=
  [ { id := "A", title := "a", description := "da", status := .OPEN,
      priority := .LOW, assignee := none, reporter := "r", created_at := 0,
      updated_at := 0, tags := [], estimated_hours := none },
    { id := "B", title := "b", description := "db", status := .RESOLVED,
      priority := .LOW, assignee := none, reporter := "r", created_at := 0,
      updated_at := 0, tags := [], estimated_hours := none },
    { id := "C", title := "c", description := "dc", status := .CLOSED,
      priority := .LOW, assignee := none, reporter := "r", created_at := 0,
      updated_at := 0, tags := [], estimated_hours := none },
    { id := "D", title := "d", description := "dd", status := .IN_PROGRESS,
      priority := .LOW, assignee := none, reporter := "r", created_at := 0,
      updated_at := 0, tags := [], estimated_hours := none } ]

/-- A small concrete ticket for witness instantiations. -/
def demoTicket : Ticket :=
  { id := "I", title := "T", description := "D", status := .OPEN,
    priority := .LOW, assignee := some "a", reporter := "R", created_at := 3,
    updated_at := 4, tags := [], estimated_hours := none }

/-- A minimal create dictionary for witness instantiations. -/
def demoCreateData : TicketData :=
  { title := some "T", description := some "D", reporter := some "R" }

/-- A create dictionary that reuses an existing id, for witness
instantiations. -/
def dupCreateData : TicketData :=
  { id := some "I", title := some "T2", description := some "D2", reporter := some "R2" }

/-- A concrete two-operation run for witness instantiations. -/
def demoOps : List Op :=
  [Op.create demoCreateData "A" 1,
    Op.update "TICKET-001" [UpdateEntry.priority TicketPriority.CRITICAL] 2]

/-! ### Dictionary lemmas -/

theorem dictGet_cons (kv : String × Ticket) (rest : Store) (k : String) :
    dictGet (kv :: rest) k = if kv.1 = k then some kv.2 else dictGet rest k := by
  by_cases h : kv.1 = k
  · have hb : (kv.1 == k) = true := by simp [h]
    simp [dictGet, List.find?, hb, h]
  · have hb : (kv.1 == k) = false := by simp [h]
    simp [dictGet, List.find?, hb, h]

theorem dictGet_replace (s : Store) (k : String) (v : Ticket) :
    dictGet (s.map (fun kv => if kv.1 == k then (kv.1, v) else kv)) k =
      (dictGet s k).map (fun _ => v) := by
  induction s with
  | nil => rfl
  | cons kv rest ih =>
      by_cases h : kv.1 = k
      · rw [List.map_cons,
          show (if kv.1 == k then (kv.1, v) else kv) = (kv.1, v) by simp [h],
          dictGet_cons, dictGet_cons]
        simp [h]
      · rw [List.map_cons,
          show (if kv.1 == k then (kv.1, v) else kv) = kv by simp [h],
          dictGet_cons, dictGet_cons, if_neg h, if_neg h]
        exact ih

theorem dictGet_append_single (s : Store) (k : String) (v : Ticket)
    (h : dictGet s k = none) : dictGet (s ++ [(k, v)]) k = some v := by
  induction s with
  | nil => simp [dictGet, List.find?]
  | cons kv rest ih =>
      rw [dictGet_cons] at h
      by_cases hk : kv.1 = k
      · simp [hk] at h
      · rw [List.cons_append, dictGet_cons, if_neg hk]
        exact ih (by simpa [hk] using h)

theorem dictGet_dictSet_self (s : Store) (k : String) (v : Ticket) :
    dictGet (dictSet s k v) k = some v := by
  unfold dictSet
  split
  · rename_i hc
    rw [dictGet_replace]
    cases hg : dictGet s k
    · rw [hg] at hc; simp at hc
    · simp
  · rename_i hc
    apply dictGet_append_single
    cases hg : dictGet s k
    · rfl
    · rw [hg] at hc; simp at hc

theorem keys_replace (s : Store) (k : String) (v : Ticket) :
    (s.map (fun kv => if kv.1 == k then (kv.1, v) else kv)).map Prod.fst =
      s.map Prod.fst := by
  induction s with
  | nil => rfl
  | cons kv rest ih =>
      simp only [List.map_cons]
      rw [ih]
      congr 1
      by_cases h : kv.1 = k <;> simp [h]

theorem mem_replace {kv : String × Ticket} (s : Store) (k : String) (v : Ticket)
    (h : kv ∈ s.map (fun kv' => if kv'.1 == k then (kv'.1, v) else kv')) :
    kv ∈ s ∨ kv.2 = v := by
  rcases List.mem_map.1 h with ⟨kv', hmem, heq⟩
  by_cases hk : kv'.1 = k
  · right
    rw [← heq]
    simp [hk]
  · left
    rw [← heq]
    simpa [hk] using hmem

theorem mem_dictSet {kv : String × Ticket} (s : Store) (k : String) (v : Ticket)
    (h : kv ∈ dictSet s k v) : kv ∈ s ∨ kv.2 = v := by
  unfold dictSet at h
  split at h
  · exact mem_replace s k v h
  · rcases List.mem_append.1 h with h | h
    · exact .inl h
    · right
      simp at h
      rw [h]

theorem dictGet_mem {s : Store} {k : String} {t : Ticket}
    (h : dictGet s k = some t) : ∃ k', (k', t) ∈ s := by
  rcases Option.map_eq_some'.1 h with ⟨kv, hfind, hsnd⟩
  refine ⟨kv.1, ?_⟩
  have hmem := List.mem_of_find?_eq_some hfind
  rwa [← hsnd, Prod.mk.eta]

/-! ### Pydantic-construction lemmas -/

theorem mkTicket_ok_fields {d : TicketData} {now : Nat} {t : Ticket}
    (h : mkTicket d now = .ok t) :
    d.id = some t.id ∧ t.created_at = d.created_at.getD now ∧
      t.updated_at = d.updated_at.getD now := by
  unfold mkTicket at h
  repeat' split at h
  all_goals cases h
  simp_all

theorem mkTicket_isOk (d : TicketData) (now : Nat)
    (hid : d.id.isSome = true) (ht : d.title.isSome = true)
    (hde : d.description.isSome = true) (hr : d.reporter.isSome = true)
    (hs : (match d.status with
            | none => true
            | some sv => (parseStatus sv).isSome) = true)
    (hp : (match d.priority with
            | none => true
            | some pv => (parsePriority pv).isSome) = true) :
    (mkTicket d now).isOk = true := by
  rcases Option.isSome_iff_exists.1 hid with ⟨iv, hiv⟩
  rcases Option.isSome_iff_exists.1 ht with ⟨tv, htv⟩
  rcases Option.isSome_iff_exists.1 hde with ⟨dv, hdv⟩
  rcases Option.isSome_iff_exists.1 hr with ⟨rv, hrv⟩
  unfold mkTicket validStatus validPriority
  rw [hiv, htv, hdv, hrv]
  cases hst : d.status with
  | none =>
      cases hpr : d.priority with
      | none => rfl
      | some pv =>
          rw [hpr] at hp
          simp only [] at hp
          rcases Option.isSome_iff_exists.1 hp with ⟨p, hpp⟩
          simp only [hpp]
          rfl
  | some sv =>
      rw [hst] at hs
      simp only [] at hs
      rcases Option.isSome_iff_exists.1 hs with ⟨stv, hss⟩
      cases hpr : d.priority with
      | none =>
          simp only [hss]
          rfl
      | some pv =>
          rw [hpr] at hp
          simp only [] at hp
          rcases Option.isSome_iff_exists.1 hp with ⟨p, hpp⟩
          simp only [hss, hpp]
          rfl

/-! ### Update-merge lemmas -/

theorem foldl_applyEntry_created_at (ups : List UpdateEntry) (t : Ticket)
    (h : ∀ u ∈ ups, isCreatedAtEntry u = false) :
    (ups.foldl applyEntry t).created_at = t.created_at := by
  induction ups generalizing t with
  | nil => rfl
  | cons u rest ih =>
      rw [List.foldl_cons, ih (applyEntry t u) (fun x hx => h x (List.mem_cons_of_mem _ hx))]
      cases u <;> try rfl
      case created_at v =>
        have hc := h (UpdateEntry.created_at v) (List.mem_cons_self _ _)
        simp [isCreatedAtEntry] at hc

/-! ### Count-dictionary lemmas -/

theorem countGet_cons {α : Type} [DecidableEq α] (kv : α × Nat) (rest : List (α × Nat))
    (k : α) : countGet (kv :: rest) k = if kv.1 = k then kv.2 else countGet rest k := by
  by_cases h : kv.1 = k
  · have hb : (kv.1 == k) = true := by simp [h]
    simp [countGet, List.find?, hb, h]
  · have hb : (kv.1 == k) = false := by simp [h]
    simp [countGet, List.find?, hb, h]

theorem find?_cons_key {α : Type} [DecidableEq α] (kv : α × Nat) (rest : List (α × Nat))
    (k : α) (h : kv.1 ≠ k) :
    (kv :: rest).find? (fun kv => kv.1 == k) = rest.find? (fun kv => kv.1 == k) := by
  have hb : (kv.1 == k) = false := by simp [h]
  simp [List.find?, hb]

theorem countGet_mapBump {α : Type} [DecidableEq α] (m : List (α × Nat)) (k' k : α) :
    countGet (m.map (fun kv => if kv.1 == k' then (kv.1, kv.2 + 1) else kv)) k =
      countGet m k +
        (if (m.find? (fun kv => kv.1 == k)).isSome ∧ k' = k then 1 else 0) := by
  induction m with
  | nil => simp [countGet]
  | cons kv rest ih =>
      by_cases h2 : kv.1 = k
      · by_cases h1 : k' = k
        · have hb' : (kv.1 == k') = true := by simp [h2, h1]
          rw [List.map_cons, if_pos hb', countGet_cons, countGet_cons, if_pos h2,
            show (kv.1, kv.2 + 1).1 = k from h2]
          have hfs : ((kv :: rest).find? (fun kv => kv.1 == k)).isSome = true := by
            have hb2 : (kv.1 == k) = true := by simp [h2]
            simp [List.find?, hb2]
          simp [hfs, h1]
        · have hb' : (kv.1 == k') = false := by
            simp [h2]
            exact fun hh => h1 hh.symm
          rw [List.map_cons, if_neg (by simp [hb']), countGet_cons, countGet_cons,
            if_pos h2, if_pos h2]
          simp [h1]
      · have hb' : (if kv.1 == k' then (kv.1, kv.2 + 1) else kv).1 = kv.1 := by
          by_cases h : kv.1 = k' <;> simp [h]
        rw [List.map_cons, countGet_cons, countGet_cons, if_neg h2,
          if_neg (by rw [hb']; exact h2), ih, find?_cons_key _ _ _ h2]

theorem countGet_append_ne {α : Type} [DecidableEq α] (m : List (α × Nat)) {k' k : α}
    (h : k' ≠ k) : countGet (m ++ [(k', 1)]) k = countGet m k := by
  induction m with
  | nil =>
      have hb : (k' == k) = false := by simp [h]
      simp [countGet, List.find?, hb]
  | cons kv rest ih =>
      rw [List.cons_append, countGet_cons, countGet_cons, ih]

theorem countGet_of_find_none {α : Type} [DecidableEq α] {m : List (α × Nat)} {k : α}
    (h : m.find? (fun kv => kv.1 == k) = none) : countGet m k = 0 := by
  simp [countGet, h]

theorem countGet_append_self {α : Type} [DecidableEq α] {m : List (α × Nat)} {k : α}
    (h : m.find? (fun kv => kv.1 == k) = none) : countGet (m ++ [(k, 1)]) k = 1 := by
  induction m with
  | nil => simp [countGet, List.find?]
  | cons kv rest ih =>
      by_cases hk : kv.1 = k
      · simp [List.find?, hk] at h
      · have hb : (kv.1 == k) = false := by simp [hk]
        simp only [List.find?, hb] at h
        rw [List.cons_append, countGet_cons, if_neg hk]
        exact ih h

theorem countGet_bump {α : Type} [DecidableEq α] (m : List (α × Nat)) (k' k : α) :
    countGet (bumpCount m k') k = countGet m k + if k' = k then 1 else 0 := by
  unfold bumpCount
  split
  · rename_i hex
    rw [countGet_mapBump]
    by_cases hk : k' = k
    · subst hk
      simp [hex]
    · simp [hk]
  · rename_i hex
    have hnone : m.find? (fun kv => kv.1 == k') = none := by
      cases hf : m.find? (fun kv => kv.1 == k')
      · rfl
      · rw [hf] at hex; simp at hex
    by_cases hk : k' = k
    · subst hk
      rw [countGet_append_self hnone, countGet_of_find_none hnone]
      simp
    · rw [countGet_append_ne _ hk]
      simp [hk]

theorem countGet_foldl_status (ts : List Ticket) (m : List (TicketStatus × Nat))
    (k : TicketStatus) :
    countGet (ts.foldl (fun m t => bumpCount m t.status) m) k =
      countGet m k + ts.countP (fun t => t.status == k) := by
  induction ts generalizing m with
  | nil => simp
  | cons t rest ih =>
      rw [List.foldl_cons, ih, countGet_bump]
      by_cases h : t.status = k <;> simp [List.countP_cons, h] <;> omega

/-! ### Rounding lemmas -/

theorem ratFloor_intCast (n : ℤ) : ratFloor ((n : ℚ)) = n := by
  simp [ratFloor, Rat.num_intCast, Rat.den_intCast, Int.fdiv_one]

/-! ### Filter-engine characterization -/

theorem matchesFilter_iff (f : TicketFilter) (t : Ticket) :
    matchesFilter f t = true ↔ SpecSatisfies f t := by
  rcases f with ⟨st?, p?, a?, r?, tg?⟩
  unfold matchesFilter SpecSatisfies
  cases st? <;> cases p? <;> cases a? <;> cases r? <;> cases tg? <;>
    simp [List.any_eq_true, List.isEmpty_iff, or_iff_not_imp_left,
      List.contains, List.elem_iff, and_assoc]

/-! ### The timestamp invariant -/

theorem storeInv_mono {c c' : Nat} {s : Store} (h : c ≤ c') (hinv : StoreInv c s) :
    StoreInv c' s :=
  fun kv hm => ⟨(hinv kv hm).1, le_trans (hinv kv hm).2 h⟩

theorem initStore_eq (t0 : Nat) :
    initStore t0 = (sampleTickets t0).map (fun t => (t.id, t)) := rfl

theorem storeInv_init (t0 : Nat) : StoreInv t0 (initStore t0) := by
  intro kv hm
  rw [initStore_eq] at hm
  rcases List.mem_map.1 hm with ⟨t, ht, rfl⟩
  simp only [sampleTickets, List.mem_cons, List.not_mem_nil, or_false] at ht
  rcases ht with rfl | rfl | rfl <;> exact ⟨le_refl _, le_refl _⟩

theorem storeInv_create (c now : Nat) (s : Store) (d : TicketData) (fresh : String)
    (hinv : StoreInv c s) (hc : c ≤ now)
    (hca : d.created_at = none) (hua : d.updated_at = none) :
    StoreInv now (runOp s (.create d fresh now)) := by
  simp only [runOp]
  cases hcr : create_ticket s d fresh now with
  | error e => exact storeInv_mono hc hinv
  | ok p =>
      rcases p with ⟨t, s'⟩
      simp only [create_ticket] at hcr
      cases hmk : mkTicket (if d.id.isNone then { d with id := some ("TICKET-" ++ fresh) }
          else d) now with
      | error e => rw [hmk] at hcr; cases hcr
      | ok t' =>
          rw [hmk] at hcr
          cases hcr
          have hf := mkTicket_ok_fields hmk
          have hca' : (if d.id.isNone then { d with id := some ("TICKET-" ++ fresh) }
              else d).created_at = none := by
            by_cases hid : d.id.isNone <;> simp [hid, hca]
          have hua' : (if d.id.isNone then { d with id := some ("TICKET-" ++ fresh) }
              else d).updated_at = none := by
            by_cases hid : d.id.isNone <;> simp [hid, hua]
          intro kv hm
          rcases mem_dictSet _ _ _ hm with h | h
          · exact ⟨(hinv kv h).1, le_trans (hinv kv h).2 hc⟩
          · rw [h, hf.2.1, hf.2.2, hca', hua']
            exact ⟨le_refl _, le_refl _⟩

theorem storeInv_update (c now : Nat) (s : Store) (tid : String)
    (ups : List UpdateEntry) (hinv : StoreInv c s) (hc : c ≤ now)
    (hb : ∀ u ∈ ups, isCreatedAtEntry u = false) :
    StoreInv now (runOp s (.update tid ups now)) := by
  simp only [runOp]
  cases hu : update_ticket s tid ups now with
  | none => exact storeInv_mono hc hinv
  | some p =>
      rcases p with ⟨t', s'⟩
      simp only [update_ticket] at hu
      cases hg : dictGet s tid with
      | none => rw [hg] at hu; cases hu
      | some t =>
          rw [hg] at hu
          cases hu
          intro kv hm
          rcases mem_replace _ _ _ hm with h | h
          · exact ⟨(hinv kv h).1, le_trans (hinv kv h).2 hc⟩
          · rw [h]
            refine ⟨?_, le_refl _⟩
            show (ups.foldl applyEntry t).created_at ≤ now
            rw [foldl_applyEntry_created_at ups t hb]
            rcases dictGet_mem hg with ⟨k', hk'⟩
            have hh : t.created_at ≤ t.updated_at ∧ t.updated_at ≤ c :=
              hinv (k', t) hk'
            omega

theorem runOps_inv (ops : List Op) (s : Store) (c : Nat)
    (hinv : StoreInv c s) (hchr : chronoFrom c ops = true)
    (hben : ops.all benignOp = true) :
    ∃ c', StoreInv c' (runOps s ops) := by
  induction ops generalizing s c with
  | nil => exact ⟨c, hinv⟩
  | cons op rest ih =>
      simp only [chronoFrom, Bool.and_eq_true, decide_eq_true_eq] at hchr
      simp only [List.all_cons, Bool.and_eq_true] at hben
      rcases hchr with ⟨hle, hchr⟩
      rcases hben with ⟨hb, hben⟩
      simp only [runOps, List.foldl_cons]
      have hstep : StoreInv (opTime op) (runOp s op) := by
        cases op with
        | create d fresh now =>
            simp only [benignOp, Bool.and_eq_true, Option.isNone_iff_eq_none] at hb
            exact storeInv_create c now s d fresh hinv hle hb.1 hb.2
        | update tid ups now =>
            simp only [benignOp, List.all_eq_true, Bool.not_eq_true'] at hb
            exact storeInv_update c now s tid ups hinv hle hb
      exact ih (runOp s op) (opTime op) hstep hchr hben

/-! ### Dispatcher lemmas -/

theorem create_ticket_isOk (s : Store) (d : TicketData) (fresh : String) (now : Nat)
    (ht : d.title.isSome = true) (hde : d.description.isSome = true)
    (hr : d.reporter.isSome = true)
    (hs : (match d.status with
            | none => true
            | some sv => (parseStatus sv).isSome) = true)
    (hp : (match d.priority with
            | none => true
            | some pv => (parsePriority pv).isSome) = true) :
    (create_ticket s d fresh now).isOk = true := by
  simp only [create_ticket]
  by_cases hi : d.id.isNone
  · rw [if_pos hi]
    have hok := mkTicket_isOk { d with id := some ("TICKET-" ++ fresh) } now
      (by simp) (by simpa using ht) (by simpa using hde) (by simpa using hr)
      (by simpa using hs) (by simpa using hp)
    cases hmk : mkTicket { d with id := some ("TICKET-" ++ fresh) } now with
    | error e => rw [hmk] at hok; exact Bool.noConfusion hok
    | ok t => rfl
  · rw [if_neg hi]
    have hid : d.id.isSome = true := by
      cases hval : d.id
      · rw [hval] at hi; simp at hi
      · simp
    have hok := mkTicket_isOk d now hid ht hde hr hs hp
    cases hmk : mkTicket d now with
    | error e => rw [hmk] at hok; exact Bool.noConfusion hok
    | ok t => rfl

theorem mkFilter_isOk (d : FilterData)
    (hs : (match d.status with
            | none => true
            | some sv => (parseStatus sv).isSome) = true)
    (hp : (match d.priority with
            | none => true
            | some pv => (parsePriority pv).isSome) = true) :
    (mkFilter d).isOk = true := by
  unfold mkFilter
  cases hst : d.status with
  | none =>
      cases hpr : d.priority with
      | none => rfl
      | some pv =>
          rw [hpr] at hp
          rcases Option.isSome_iff_exists.1 hp with ⟨p, hpp⟩
          rw [show (some pv).bind parsePriority = parsePriority pv from rfl, hpp]
          rfl
  | some sv =>
      rw [hst] at hs
      rcases Option.isSome_iff_exists.1 hs with ⟨stv, hss⟩
      rw [show (some sv).bind parseStatus = parseStatus sv from rfl, hss]
      cases hpr : d.priority with
      | none => rfl
      | some pv =>
          rw [hpr] at hp
          rcases Option.isSome_iff_exists.1 hp with ⟨p, hpp⟩
          rw [show (some pv).bind parsePriority = parsePriority pv from rfl, hpp]
          rfl

/-! ### Analysis lemmas -/

theorem countGet_nil {α : Type} [DecidableEq α] (k : α) :
    countGet ([] : List (α × Nat)) k = 0 := rfl

theorem trends_formula (tickets : List Ticket) :
    (analyze_trends tickets).completion_rate =
      if tickets.length = 0 then 0
      else
        pyRound2
          ((((tickets.countP (fun t => t.status == TicketStatus.RESOLVED) +
              tickets.countP (fun t => t.status == TicketStatus.CLOSED) : Nat)) : ℚ) /
            (tickets.length : ℚ) * 100) := by
  simp only [analyze_trends]
  cases tickets with
  | nil => simp
  | cons t rest =>
      rw [countGet_foldl_status, countGet_foldl_status]
      simp [countGet_nil, List.isEmpty]

theorem pyRound2_of_int (n : ℤ) (q : ℚ) (h : q * 100 = (n : ℚ)) :
    pyRound2 q = (n : ℚ) / 100 := by
  simp only [pyRound2, h, ratFloor_intCast]
  rw [sub_self]
  rw [if_pos (by norm_num)]

/-! ## Claim theorems -/

/-- C1, counterexample: `handle_call_tool` installs no exception handler, so
a `create_ticket` call whose argument dictionary is missing the required
`title` field raises a pydantic `ValidationError` out of the dispatcher,
and an `analyze_tickets` call with an unrecognized `analysis_type` raises
`UnboundLocalError` — neither returns a textual result. -/
theorem C1_dispatch_create_missing_field_raises :
    handle_call_tool (initStore 0) (ToolCall.create_ticket {}) "X" 0 =
      .error (.validationError (.missing "title")) ∧
    handle_call_tool (initStore 0) (ToolCall.analyze_tickets (some "bogus")) "X" 0 =
      .error (.unboundLocal "analysis") :=
  ⟨rfl, rfl⟩

/-- C1, amended: for every argument dictionary that is well formed for its
tool's declared input schema (required keys present, enum-valued strings in
their allowed sets, recognized `analysis_type`), the dispatcher returns a
normal textual result — including for unknown tool names and for ids of
missing tickets; for malformed dictionaries, `handle_call_tool` itself
raises (`ValidationError`, `KeyError`, or `UnboundLocalError`) and the
exception leaves the dispatch boundary. -/
theorem C1_dispatch_wellformed_ok (s : Store) (call : ToolCall) (fresh : String)
    (now : Nat) (h : wellFormedCall call = true) :
    (handle_call_tool s call fresh now).isOk = true := by
  cases call with
  | create_ticket d =>
      simp only [wellFormedCall, Bool.and_eq_true] at h
      obtain ⟨⟨⟨⟨ht, hde⟩, hr⟩, hs⟩, hp⟩ := h
      have hok := create_ticket_isOk s d fresh now ht hde hr hs hp
      simp only [handle_call_tool]
      cases hcr : create_ticket s d fresh now with
      | error e => rw [hcr] at hok; exact Bool.noConfusion hok
      | ok p => rcases p with ⟨t, s'⟩; rfl
  | get_ticket ticket_id? =>
      rcases Option.isSome_iff_exists.1 (by simpa [wellFormedCall] using h) with ⟨tid, rfl⟩
      simp only [handle_call_tool]
      cases hg : get_ticket s tid <;> rfl
  | update_ticket ticket_id? updates? =>
      simp only [wellFormedCall, Bool.and_eq_true] at h
      rcases Option.isSome_iff_exists.1 h.1 with ⟨tid, rfl⟩
      rcases Option.isSome_iff_exists.1 h.2 with ⟨ups, rfl⟩
      simp only [handle_call_tool]
      cases hu : update_ticket s tid ups now with
      | none => rfl
      | some p => rcases p with ⟨t, s'⟩; rfl
  | list_tickets arguments? =>
      cases arguments? with
      | none => rfl
      | some dd =>
          simp only [wellFormedCall, Bool.and_eq_true] at h
          have hok := mkFilter_isOk dd h.1 h.2
          simp only [handle_call_tool]
          cases hf : mkFilter dd with
          | error e => rw [hf] at hok; exact Bool.noConfusion hok
          | ok f => rfl
  | get_ticket_summary => rfl
  | analyze_tickets analysis_type? =>
      simp only [wellFormedCall, Bool.or_eq_true, beq_iff_eq] at h
      rcases h with (h | h) | h <;> subst h <;> rfl
  | get_ticket_description ticket_id? el af =>
      rcases Option.isSome_iff_exists.1 (by simpa [wellFormedCall] using h) with ⟨tid, rfl⟩
      simp only [handle_call_tool]
      cases hg : get_ticket s tid <;> rfl
  | search_validator_failures j sf db => rfl
  | unknown name => rfl

/-- C1, witness for the amended theorem at a concrete well-formed call. -/
theorem C1_dispatch_wellformed_ok_witness :
    wellFormedCall (ToolCall.get_ticket (some "TICKET-001")) = true ∧
      (handle_call_tool (initStore 0) (ToolCall.get_ticket (some "TICKET-001"))
        "X" 1).isOk = true :=
  ⟨by decide,
    C1_dispatch_wellformed_ok (initStore 0) (ToolCall.get_ticket (some "TICKET-001"))
      "X" 1 (by decide)⟩

/-- C2, counterexample: a create call supplying the id of an existing ticket
(`TICKET-001`) succeeds instead of failing with `ValidationError`, and the
stored ticket under that id is replaced (its title changes from
"Fix login bug" to "T"), so the store is not left unchanged. -/
theorem C2_create_duplicate_id_overwrites_cex :
    (create_ticket (initStore 0)
      { id := some "TICKET-001", title := some "T", description := some "D",
        reporter := some "R" } "F" 5).isOk = true ∧
    ((create_ticket (initStore 0)
      { id := some "TICKET-001", title := some "T", description := some "D",
        reporter := some "R" } "F" 5).toOption.map
        (fun p => (dictGet p.2 "TICKET-001").map Ticket.title)) = some (some "T") ∧
    ((dictGet (initStore 0) "TICKET-001").map Ticket.title) = some "Fix login bug" :=
  ⟨by decide, by decide, by decide⟩

/-- C2, amended: a create call whose field dictionary supplies an id equal
to the id of a ticket already in the store does not fail: provided the
ticket data passes pydantic validation, the create succeeds and overwrites
the existing ticket in place — the new ticket is stored under the colliding
key and the store's key sequence is unchanged. -/
theorem C2_create_duplicate_id_overwrites (s : Store) (d : TicketData)
    (k fresh : String) (now : Nat) (hid : d.id = some k)
    (hex : (dictGet s k).isSome = true) (hmk : (mkTicket d now).isOk = true) :
    ∃ t s', create_ticket s d fresh now = .ok (t, s') ∧ t.id = k ∧
      dictGet s' k = some t ∧ s'.map Prod.fst = s.map Prod.fst := by
  have hnn : d.id.isNone = false := by rw [hid]; rfl
  cases hm : mkTicket d now with
  | error e => rw [hm] at hmk; exact Bool.noConfusion hmk
  | ok t =>
      have hkid : t.id = k := by
        have hf := (mkTicket_ok_fields hm).1
        rw [hid] at hf
        injection hf with hf
        exact hf.symm
      refine ⟨t, dictSet s t.id t, ?_, hkid, ?_, ?_⟩
      · simp only [create_ticket, hnn, Bool.false_eq_true, if_false, hm]
      · rw [hkid]
        exact dictGet_dictSet_self s k t
      · rw [hkid]
        unfold dictSet
        rw [if_pos hex]
        exact keys_replace s k t

/-- C2, witness for the amended theorem at a concrete store and create call. -/
theorem C2_create_duplicate_id_overwrites_witness :
    ∃ t s', create_ticket [("I", demoTicket)] dupCreateData "F" 9 = .ok (t, s') ∧
      t.id = "I" ∧ dictGet s' "I" = some t ∧
      s'.map Prod.fst = ([("I", demoTicket)] : Store).map Prod.fst :=
  C2_create_duplicate_id_overwrites [("I", demoTicket)] dupCreateData "I" "F" 9
    (by decide) (by decide) (by decide)

/-- C3, counterexample: an update whose partial-field set contains
`created_at` (value 100, at clock time 5) leaves the stored `TICKET-001`
with `created_at` greater than `updated_at`, violating the invariant on a
store reachable by a single update operation. -/
theorem C3_update_created_at_breaks_invariant_cex :
    ((runOps (initStore 0)
        [Op.update "TICKET-001" [UpdateEntry.created_at 100] 5]).all
      (fun kv => decide (kv.2.created_at ≤ kv.2.updated_at))) = false := by
  decide

/-- C3, amended: every ticket satisfies `updated_at ≥ created_at` in every
store reachable from the initial state by create and update operations,
provided the operations do not forge timestamps (creates leave
`created_at`/`updated_at` to their defaults and updates never write
`created_at`) and the wall clock is monotone across the run. -/
theorem C3_timestamps_invariant_benign (t0 : Nat) (ops : List Op)
    (hchr : chronoFrom t0 ops = true) (hben : ops.all benignOp = true) :
    ∀ kv ∈ runOps (initStore t0) ops, kv.2.created_at ≤ kv.2.updated_at := by
  rcases runOps_inv ops (initStore t0) t0 (storeInv_init t0) hchr hben with ⟨c, hinv⟩
  exact fun kv hm => (hinv kv hm).1

/-- C3, witness for the amended theorem on a concrete two-operation run. -/
theorem C3_timestamps_invariant_benign_witness :
    chronoFrom 0 demoOps = true ∧
    ((runOps (initStore 0) demoOps).all
      (fun kv => decide (kv.2.created_at ≤ kv.2.updated_at))) = true := by
  refine ⟨by decide, ?_⟩
  have h := C3_timestamps_invariant_benign 0 demoOps (by decide) (by decide)
  rw [List.all_eq_true]
  intro kv hm
  exact decide_eq_true (h kv hm)

/-- C4: updating an existing ticket with exactly `{"priority": "critical"}`
stores a ticket with priority critical, the title, description and assignee
unchanged, and `updated_at` set to the current time (≥ the prior
`updated_at`, assuming a monotone clock); appending an unknown field name
to the partial set changes nothing. -/
theorem C4_update_priority_critical_frame (s : Store) (tid : String) (t : Ticket)
    (now : Nat) (k : String) (hget : dictGet s tid = some t)
    (hnow : t.updated_at ≤ now) :
    ∃ t' s', update_ticket s tid [UpdateEntry.priority .CRITICAL] now =
        some (t', s') ∧
      t'.priority = .CRITICAL ∧ t'.title = t.title ∧
      t'.description = t.description ∧ t'.assignee = t.assignee ∧
      t'.updated_at = now ∧ t.updated_at ≤ t'.updated_at ∧
      update_ticket s tid
          [UpdateEntry.priority .CRITICAL, UpdateEntry.unknown k] now =
        update_ticket s tid [UpdateEntry.priority .CRITICAL] now := by
  simp only [update_ticket, hget]
  exact ⟨_, _, rfl, rfl, rfl, rfl, rfl, rfl, hnow, rfl⟩

/-- C4, witness at a concrete store, ticket and update. -/
theorem C4_update_priority_critical_frame_witness :
    ∃ t' s', update_ticket [("I", demoTicket)] "I"
        [UpdateEntry.priority .CRITICAL] 7 = some (t', s') ∧
      t'.priority = .CRITICAL ∧ t'.title = demoTicket.title ∧
      t'.description = demoTicket.description ∧
      t'.assignee = demoTicket.assignee ∧
      t'.updated_at = 7 ∧ demoTicket.updated_at ≤ t'.updated_at ∧
      update_ticket [("I", demoTicket)] "I"
          [UpdateEntry.priority .CRITICAL, UpdateEntry.unknown "bogus"] 7 =
        update_ticket [("I", demoTicket)] "I" [UpdateEntry.priority .CRITICAL] 7 :=
  C4_update_priority_critical_frame [("I", demoTicket)] "I" demoTicket 7 "bogus"
    (by decide) (by decide)

/-- C5: the filter loop is exactly the spec's per-field conjunction —
equality on status/priority/assignee/reporter, intersection on tags, with
truthy ("set") fields imposing the constraint and unset ones none — and
`list_tickets` returns exactly the matching tickets in insertion order;
with no filter it returns every ticket in insertion order. -/
theorem C5_list_filter_matches_spec (s : Store) (f : TicketFilter) :
    (∀ t, matchesFilter f t = true ↔ SpecSatisfies f t) ∧
    list_tickets s (some f) = (storeValues s).filter (matchesFilter f) ∧
    list_tickets s none = storeValues s :=
  ⟨fun t => matchesFilter_iff f t, rfl, rfl⟩

/-- C6: creating a ticket with exactly `{title, description, reporter}` and
immediately getting the returned id yields a ticket with status open,
priority medium, no tags, and equal creation and update timestamps. -/
theorem C6_create_get_roundtrip (s : Store)
    (title description reporter fresh : String) (now : Nat) :
    ∃ t s', create_ticket s
        { title := some title, description := some description,
          reporter := some reporter } fresh now = .ok (t, s') ∧
      get_ticket s' t.id = some t ∧ t.status = .OPEN ∧ t.priority = .MEDIUM ∧
      t.tags = [] ∧ t.created_at = t.updated_at := by
  refine ⟨_, _, rfl, ?_, rfl, rfl, rfl, rfl⟩
  exact dictGet_dictSet_self s _ _

/-- C7: the trends analysis reports
`completion_rate = round((resolved + closed) / total * 100, 2)`, taking the
value 0 on an empty ticket set; on a 4-ticket set with one resolved and one
closed ticket it reports 50. -/
theorem C7_trends_completion_rate :
    (∀ tickets : List Ticket,
      (analyze_trends tickets).completion_rate =
        if tickets.length = 0 then 0
        else
          pyRound2
            ((((tickets.countP (fun t => t.status == TicketStatus.RESOLVED) +
                tickets.countP (fun t => t.status == TicketStatus.CLOSED) : Nat)) : ℚ) /
              (tickets.length : ℚ) * 100)) ∧
    (analyze_trends fourTicketSample).completion_rate = 50 := by
  refine ⟨trends_formula, ?_⟩
  rw [trends_formula]
  have h1 : fourTicketSample.countP
      (fun t => t.status == TicketStatus.RESOLVED) = 1 := by decide
  have h2 : fourTicketSample.countP
      (fun t => t.status == TicketStatus.CLOSED) = 1 := by decide
  have h3 : fourTicketSample.length = 4 := by decide
  rw [h1, h2, h3, if_neg (by norm_num)]
  rw [pyRound2_of_int 5000 _ (by push_cast; norm_num)]
  norm_num

/-- C8: for a fixed store and status filter, the search results (the match
list and its count) of `search_validator_failures` do not depend on the
`jql_query` and `days_back` arguments; only the echoed query string may
differ between two runs. -/
theorem C8_search_independent_of_query_and_days (s : Store) (sf j1 j2 : String)
    (d1 d2 : Int) :
    (search_validator_failures s j1 sf d1).total_found =
      (search_validator_failures s j2 sf d2).total_found ∧
    (search_validator_failures s j1 sf d1).tickets =
      (search_validator_failures s j2 sf d2).tickets :=
  ⟨rfl, rfl⟩

/-- C9: a fresh store is preloaded with the three sample tickets
TICKET-001, TICKET-002, TICKET-003: before any create, an unfiltered list
returns exactly them (in that order), the summary counts 3 tickets, and the
store is not empty. -/
theorem C9_fresh_store_preloaded (t0 : Nat) :
    (list_tickets (initStore t0) none).map Ticket.id =
      ["TICKET-001", "TICKET-002", "TICKET-003"] ∧
    (get_summary (initStore t0)).total_tickets = 3 ∧
    list_tickets (initStore t0) none ≠ [] := by
  refine ⟨rfl, rfl, ?_⟩
  intro hcontra
  have hlen : (list_tickets (initStore t0) none).length = 3 := rfl
  rw [hcontra] at hlen
  simp at hlen

/-- C10: a filter whose assignee or reporter is the empty string, or whose
tag list is empty, imposes no constraint — listing with such a filter
returns every ticket, not only those whose field equals the falsy value. -/
theorem C10_falsy_filter_no_constraint (s : Store) :
    list_tickets s (some { assignee := some "" }) = storeValues s ∧
    list_tickets s (some { reporter := some "" }) = storeValues s ∧
    list_tickets s (some { tags := some [] }) = storeValues s := by
  refine ⟨?_, ?_, ?_⟩ <;> simp [list_tickets, matchesFilter]

end TicketWhisperer